import Mathlib

/-!
Verification development for the AI-Konsultant legal-assistant bot.

The definitions below are a shallow embedding of the retrieval-augmented
agent orchestration loop and its tool set, translated from the Python
sources under `bot/` (graph/nodes.py, graph/workflow.py, graph/tools.py,
rag_service.py, database.py, core/resources.py, config.py).  External
collaborators (the langgraph prebuilt ToolNode, the language model, the
retrieval backends) enter as explicit oracles/parameters, so that every
code path of the repository's own logic is represented as a total,
computable Lean function.
-/

/-- Status carried by a tool-result message (langchain ToolMessage.status). -/
inductive MsgStatus
  | ok
  | error
deriving DecidableEq, Repr, BEq

/-- One tool-call request emitted by an assistant message: a tool name, an
argument payload (abstracted as a string), and a unique call identifier. -/
structure ToolCall where
  name : String
  args : String
  id : String
deriving DecidableEq, Repr

/-- A conversation message, as used by the agent graph: system / human /
assistant (with its list of tool-call requests) / tool-result. -/
inductive Msg
  | system (content : String)
  | human (content : String)
  | ai (content : String) (tool_calls : List ToolCall)
  | tool (content : String) (tool_call_id : String) (status : MsgStatus)
deriving DecidableEq, Repr

/-- Modelled from the spec: corrective-instruction text of
MSG_TOOL_ERROR_PREFIX in bot/core/prompts.py, which is absent from src/
(spec section 4.4: a fixed instructional message telling the model its
call was malformed).  The exact text is irrelevant to the claims. -/
def MSG_TOOL_ERROR_HEAD : String := "Ошибка вызова функции. Детали: "

/-- Modelled from the spec: corrective-instruction text of
MSG_TOOL_ERROR_SUFFIX in bot/core/prompts.py, absent from src/. -/
def MSG_TOOL_ERROR_TAIL : String := " Проверь аргументы и верни корректный JSON."

/-- Modelled from the spec: critical-error text of MSG_TOOL_CRITICAL_ERROR
in bot/core/prompts.py, absent from src/ (spec section 4.4: a fixed
critical-error message embedding the exception text). -/
def MSG_TOOL_CRITICAL_ERROR : String := "Ошибка вызова функции (Critical): "

/-- Modelled from the spec: the langgraph prebuilt ToolNode
(langgraph.prebuilt.ToolNode, an external library), as described in spec
section 4.4: for each tool-call request of the most recent assistant
message it executes the corresponding tool and produces one tool-result
message per request, preserving the call identifier.  The outcome of each
individual tool execution (content and ok/error status, covering
argument-validation failures that ToolNode itself converts into
error-status results) is supplied by the oracle `exec`. -/
def coreToolNode (exec : ToolCall → String × MsgStatus) (calls : List ToolCall) : List Msg :=
  calls.map (fun c => Msg.tool (exec c).1 c.id (exec c).2)

/-- The error-rewriting pass of `safe_tool_node_func` (bot/graph/nodes.py
lines 45-69): a ToolMessage whose status is error, or whose non-empty
content starts with "Error:", is replaced by a ToolMessage carrying the
fixed corrective instruction (with the original content embedded), the
same tool_call_id, and status error; every other message passes through. -/
def rewriteToolMsg : Msg → Msg
  | Msg.tool content id st =>
    if st == MsgStatus.error || (content != "" && content.startsWith "Error:") then
      Msg.tool ( MSG_TOOL_ERROR_HEAD ++ content ++ MSG_TOOL_ERROR_TAIL) id MsgStatus.error
    else
      Msg.tool content id st
  | m => m

/-- The tool-call requests pending on the last message of the state:
`state["messages"][-1].tool_calls` when that message is an AIMessage,
and the empty list otherwise (bot/graph/nodes.py lines 76-77). -/
def lastPendingCalls (msgs : List Msg) : List ToolCall :=
  match msgs.getLast? with
  | some (Msg.ai _ calls) => calls
  | _ => []

/-- The tool node created by `create_tool_node` (bot/graph/nodes.py lines
29-91).  `msgs` is the accumulated message state, `exec` the per-call
execution oracle fed to the inner prebuilt ToolNode, and `crash` models an
unexpected exception raised inside the tool-invocation machinery itself
(`None` on the normal path, the exception text otherwise).  On the normal
path every inner result is passed through the error-rewriting pass; on the
crash path a single synthetic tool-result bearing the first pending call
identifier is produced, or no message at all when no tool call is pending. -/
def safe_tool_node (msgs : List Msg) (exec : ToolCall → String × MsgStatus)
    (crash : Option String) : List Msg :=
  match crash with
  | none => (coreToolNode exec (lastPendingCalls msgs)).map rewriteToolMsg
  | some e =>
    match lastPendingCalls msgs with
    | c :: _ =>
      [Msg.tool ( MSG_TOOL_CRITICAL_ERROR ++ e ++ MSG_TOOL_ERROR_TAIL) c.id MsgStatus.error]
    | [] => []

/-- The call identifier of a tool-result message, if the message is one. -/
def toolCallId : Msg → Option String
  | Msg.tool _ id _ => some id
  | _ => none

/-- Modelled from the spec: `tools_condition` from langgraph.prebuilt (an
external library), as used in bot/graph/workflow.py line 45: routes to the
tools node exactly when the last message is an assistant message carrying
at least one tool-call request, and to the terminal state otherwise. -/
def tools_condition (msgs : List Msg) : Bool :=
  match msgs.getLast? with
  | some (Msg.ai _ (_ :: _)) => true
  | _ => false

/-- The MODEL node `call_model` (bot/graph/nodes.py lines 14-27): invokes
the language model (oracle `model`, returning the new assistant message's
content and tool-call requests) on the accumulated messages and appends
exactly one new assistant message. -/
def call_model (model : List Msg → String × List ToolCall) (msgs : List Msg) : List Msg :=
  msgs ++ [Msg.ai (model msgs).1 (model msgs).2]

/-- Execution of the compiled agent graph of `create_agent_graph`
(bot/graph/workflow.py lines 11-53): START goes to the agent node; after
each agent (MODEL) step, `tools_condition` routes either to the tools node
(whose produced messages, given by `toolsNode`, are appended before
looping back to the agent node) or to END.  The graph itself has no
iteration ceiling; `fuel` merely bounds the unrolling of this embedding,
and `none` means the run was still looping when the fuel ran out. -/
def runAgentGraph (model : List Msg → String × List ToolCall)
    (toolsNode : List Msg → List Msg) : Nat → List Msg → Option (List Msg)
  | 0, _ => none
  | Nat.succ fuel, msgs =>
    let msgsAfterModel := call_model model msgs
    if tools_condition msgsAfterModel then
      runAgentGraph model toolsNode fuel (msgsAfterModel ++ toolsNode msgsAfterModel)
    else
      some msgsAfterModel

/-- The retrieval strategies that `_initialize_retriever`
(bot/rag_service.py lines 71-116) can construct: the dense Chroma
retriever with fan-out k, the loaded BM25 lexical retriever with fan-out
k, the two-member weighted ensemble of them, and the reranking
ContextualCompressionRetriever wrapping a base retriever with output
count top_n. -/
inductive Retriever
  | chroma (k : Nat)
  | bm25 (k : Nat)
  | ensemble (dense : Retriever) (lexical : Retriever) (wDense : ℚ) (wLex : ℚ)
  | compression (top_n : Nat) (base : Retriever)
deriving DecidableEq, Repr

/-- The configuration fields of bot/config.py consumed by retriever
initialization and answering (RETRIEVER_K, RERANKER_K, MAX_DISTANCE,
LLM_CONCURRENCY). -/
structure RagConfig where
  retrieverK : Nat
  rerankerK : Nat
  maxDistance : Option ℚ
  llmConcurrency : Nat
deriving Repr

/-- The environment facts that decide retriever construction: whether the
pickled BM25 sub-index file exists, the outcome of unpickling it (the
payload abstracted as the loaded retriever's stored fan-out, which the
code overwrites), and the outcome of initializing the cross-encoder
reranker model. -/
structure InitEnv where
  bm25Exists : Bool
  bm25Load : Except String Nat
  rerankerInit : Except String Unit
deriving Repr

/-- The base-retriever construction of `_initialize_retriever`
(bot/rag_service.py lines 73-101): start from the dense Chroma retriever;
if the BM25 file exists and loads, build the 0.5/0.5 ensemble (the loaded
retriever's fan-out is overwritten with RETRIEVER_K); if the file is
absent or loading raises, keep the dense retriever (the condition is
logged and initialization continues). -/
def initializeBaseRetriever (cfg : RagConfig) (env : InitEnv) : Retriever :=
  let chromaRetriever := Retriever.chroma cfg.retrieverK
  if env.bm25Exists then
    match env.bm25Load with
    | Except.ok _ =>
      Retriever.ensemble chromaRetriever (Retriever.bm25 cfg.retrieverK) (1/2) (1/2)
    | Except.error _ => chromaRetriever
  else
    chromaRetriever

/-- `_initialize_retriever` (bot/rag_service.py lines 71-116): wrap the
base retriever in the reranking compression retriever when the
cross-encoder initializes, and return the base retriever unmodified when
reranker initialization raises (logged, not raised further).  The same
construction appears in initialize_bot_resources
(bot/core/resources.py lines 46-85). -/
def initialize_retriever (cfg : RagConfig) (env : InitEnv) : Retriever :=
  let base := initializeBaseRetriever cfg env
  match env.rerankerInit with
  | Except.ok _ => Retriever.compression cfg.rerankerK base
  | Except.error _ => base

/-- Metadata of a retrieved document chunk (langchain Document.metadata as
read by search_laws): the optional source / chapter / article / title
entries; a missing key is `none`. -/
structure DocMeta where
  source : Option String
  chapter : Option String
  article : Option String
  title : Option String
deriving DecidableEq, Repr

/-- A retrieved document: page content plus metadata. -/
structure Document where
  page_content : String
  metadata : DocMeta
deriving DecidableEq, Repr

/-- Python truthiness of an optional string: both a missing key and an
empty string are falsy (used by the chapter/article checks in
search_laws). -/
def optNonempty : Option String → Option String
  | some s => if s = "" then none else some s
  | none => none

/-- The per-document block built by search_laws (bot/graph/tools.py lines
37-54): numbered header, source enriched with chapter and article when
truthy, title (defaulting to the empty string), and the body text. -/
def formatDocBlock (i : Nat) (d : Document) : String :=
  let source := d.metadata.source.getD "Unknown"
  let chapterPart :=
    match optNonempty d.metadata.chapter with
    | some c => [c]
    | none => []
  let articlePart :=
    match optNonempty d.metadata.article with
    | some a => [a]
    | none => []
  let full_source := String.intercalate ", " ([source] ++ chapterPart ++ articlePart)
  let title := d.metadata.title.getD ""
  "--- Документ " ++ toString (i + 1) ++ " ---\nИсточник: " ++ full_source ++ " "
    ++ title ++ "\nТекст: " ++ d.page_content

/-- Fixed reply of search_laws when no retriever is bound
(bot/graph/tools.py line 28). -/
def MSG_SEARCH_NOT_CONFIGURED : String :=
  "Ошибка: Инструмент поиска не настроен (retriever is None)."

/-- Fixed reply of search_laws when the retriever returns no documents
(bot/graph/tools.py line 34). -/
def MSG_SEARCH_NOTHING_FOUND : String := "По вашему запросу ничего не найдено."

/-- The search_laws tool (bot/graph/tools.py lines 13-58).  The bound
module-level retriever is `none` when `set_retriever` was never called;
otherwise invoking it either raises (modelled by `Except.error` with the
exception text) or returns the document list. -/
def search_laws (retriever : Option (String → Except String (List Document)))
    (query : String) : String :=
  match retriever with
  | none => MSG_SEARCH_NOT_CONFIGURED
  | some r =>
    match r query with
    | Except.error e => "Ошибка при выполнении поиска: " ++ e
    | Except.ok docs =>
      if docs.isEmpty then
        MSG_SEARCH_NOTHING_FOUND
      else
        String.intercalate "\n\n" (docs.enum.map (fun p => formatDocBlock p.1 p.2))

/-- Digit grouping: inserts a comma after every third character of the
reversed digit list (helper for Python's thousands separator in the
format spec used by the calculators). -/
def insertThousandsAux : List Char → List Char
  | [] => []
  | [a] => [a]
  | [a, b] => [a, b]
  | [a, b, c] => [a, b, c]
  | a :: b :: c :: rest => a :: b :: c :: ',' :: insertThousandsAux rest

/-- Inserts thousands separators into a digit string, as Python's
comma format-spec flag does for the integer part. -/
def insertThousands (s : String) : String :=
  String.mk (insertThousandsAux s.data.reverse).reverse

/-- Two-digit rendering of a cent count below 100. -/
def padCents (n : Nat) : String :=
  if n < 10 then "0" ++ toString n else toString n

/-- Renders a nonnegative cent count in Python money format. -/
def formatMoneyNat (cents : Nat) : String :=
  insertThousands (toString (cents / 100)) ++ "." ++ padCents (cents % 100)

/-- Renders a rational amount the way Python formats a float with comma
separators and two decimals, rounding to the nearest cent (the float
rounding error of the source never reaches the second decimal for the
amounts at issue). -/
def formatMoney (q : ℚ) : String :=
  if q < 0 then
    "-" ++ formatMoneyNat (Int.toNat (Rat.floor ((-q) * 100 + 1/2)))
  else
    formatMoneyNat (Int.toNat (Rat.floor (q * 100 + 1/2)))

/-- Result of the 214-FZ penalty calculator: the base total, the doubled
informational figure, and the returned message text. -/
structure Penalty214 where
  total_penalty : ℚ
  doubled : ℚ
  text : String
deriving DecidableEq, Repr

/-- calculate_penalty_214fz (bot/graph/tools.py lines 60-96), with the
Python floats read as exact rationals: rate fixed at 21.0, daily penalty
(price * (rate/100)) / 300, total = daily * delay_days, and the returned
string reporting the total plus the doubled value as a note. -/
def calculate_penalty_214fz (price : ℚ) (delay_days : ℤ) : Penalty214 :=
  let rate : ℚ := 21
  let daily_penalty := (price * (rate / 100)) / 300
  let total_penalty := daily_penalty * (delay_days : ℚ)
  { total_penalty := total_penalty
    doubled := total_penalty * 2
    text :=
      "Расчет неустойки по 214-ФЗ:\n- Цена объекта: " ++ formatMoney price
        ++ " руб.\n- Дней просрочки: " ++ toString delay_days
        ++ "\n- Ставка ЦБ РФ: 21.0%\n- Формула: (Цена * Ставка / 300) * Дни\n- Размер неустойки (1/300 ставки): "
        ++ formatMoney total_penalty
        ++ " руб.\n(Примечание: Для физических лиц суд часто взыскивает неустойку в двойном размере — 1/150 ставки, то есть "
        ++ formatMoney (total_penalty * 2) ++ " руб.)" }

/-- Result of the consumer-protection-law penalty calculator: the 1%
(goods) figure, the 3% (services) figure, and the returned message text. -/
structure PenaltyZpp where
  penalty_1_percent : ℚ
  penalty_3_percent : ℚ
  text : String
deriving DecidableEq, Repr

/-- calculate_penalty_zpp (bot/graph/tools.py lines 98-130): 1% of price
per day for goods, 3% per day for services, both returned raw; the cap is
only mentioned in the advisory note, never applied to the numbers. -/
def calculate_penalty_zpp (price : ℚ) (delay_days : ℤ) : PenaltyZpp :=
  let penalty_1_percent := price * (1/100) * (delay_days : ℚ)
  let penalty_3_percent := price * (3/100) * (delay_days : ℚ)
  { penalty_1_percent := penalty_1_percent
    penalty_3_percent := penalty_3_percent
    text :=
      "Расчет неустойки по ЗоЗПП (Закон о защите прав потребителей):\n- Цена: "
        ++ formatMoney price ++ " руб.\n- Дней просрочки: " ++ toString delay_days
        ++ "\n\nВариант 1 (Товары - 1% в день, ст. 23 ЗоЗПП):\n- Сумма: "
        ++ formatMoney penalty_1_percent
        ++ " руб.\n\nВариант 2 (Работы/Услуги - 3% в день, ст. 28 ЗоЗПП):\n- Сумма: "
        ++ formatMoney penalty_3_percent
        ++ " руб.\n(Примечание: Сумма неустойки не может превышать стоимость товара/работы/услуги)." }

/-- Python's trailing slice l[-n:]: the last n elements (all of them when
the list is shorter). -/
def lastN (n : Nat) (l : List α) : List α := l.drop (l.length - n)

/-- The history update performed at the end of a completed interaction in
get_answer (bot/rag_service.py lines 188-191): append the question and
the assistant answer as a pair, then keep only the last 6 messages. -/
def updateHistory (stored : List Msg) (question answer : String) : List Msg :=
  lastN 6 (stored ++ [Msg.human question, Msg.ai answer []])

/-- The stored conversation window of one user after a sequence of
completed interactions, starting from the empty history. -/
def runInteractions (pairs : List (String × String)) : List Msg :=
  pairs.foldl (fun h qa => updateHistory h qa.1 qa.2) []

/-- The question/answer pairs flattened into the message sequence the
history stores: a HumanMessage then a content-only AIMessage per pair. -/
def flatPairs : List (String × String) → List Msg
  | [] => []
  | qa :: ps => Msg.human qa.1 :: Msg.ai qa.2 [] :: flatPairs ps

/-- Content attribute of a streamed chunk as seen through the Python
checks of get_answer: absent/None, a string (possibly empty), or a value
of a non-string type. -/
inductive ChunkContent
  | absent
  | str (s : String)
  | nonStr
deriving DecidableEq, Repr

/-- A chunk object carried by an on_chat_model_stream event. -/
structure StreamChunk where
  content : ChunkContent
deriving DecidableEq, Repr

/-- An event of graph.astream_events as dispatched by get_answer
(bot/rag_service.py lines 168-186): a tool-invocation start, a model
token-stream event (whose data may lack the chunk key), or any other
event kind (ignored by the loop). -/
inductive StreamEvent
  | on_tool_start
  | on_chat_model_stream (chunk : Option StreamChunk)
  | on_other
deriving DecidableEq, Repr

/-- The tool-invocation status marker yielded by get_answer on each
on_tool_start event (bot/rag_service.py line 173). -/
def TOOL_STATUS_MARKER : String := "⏳ Выполняю запрос к инструментам...\n"

/-- The model-token text fragment an event contributes to full_response:
present exactly for an on_chat_model_stream event whose chunk has a
non-empty string content (all of the Python truthiness and isinstance
checks of lines 175-186). -/
def tokenOfEvent : StreamEvent → Option String
  | StreamEvent.on_chat_model_stream (some c) =>
    match c.content with
    | ChunkContent.str s => if s = "" then none else some s
    | _ => none
  | _ => none

/-- What one event makes get_answer yield into the output stream: the
fixed marker for on_tool_start, the token fragment for a model-stream
event carrying one, nothing otherwise. -/
def yieldOfEvent (e : StreamEvent) : List String :=
  match e with
  | StreamEvent.on_tool_start => [TOOL_STATUS_MARKER]
  | _ =>
    match tokenOfEvent e with
    | some s => [s]
    | none => []

/-- Loop state of the event-consuming loop of get_answer: the accumulated
full_response and the fragments yielded so far, in order. -/
structure GenLoopState where
  full_response : String
  yields : List String
deriving DecidableEq, Repr

/-- One iteration of the astream_events loop of get_answer
(bot/rag_service.py lines 168-186): on_tool_start yields the marker
without touching full_response; a model-stream event with a non-empty
string chunk content appends the fragment to full_response and yields it;
everything else is ignored. -/
def genStep (st : GenLoopState) (e : StreamEvent) : GenLoopState :=
  match e with
  | StreamEvent.on_tool_start => { st with yields := st.yields ++ [TOOL_STATUS_MARKER] }
  | StreamEvent.on_chat_model_stream (some c) =>
    match c.content with
    | ChunkContent.str s =>
      if s = "" then st
      else { full_response := st.full_response ++ s, yields := st.yields ++ [s] }
    | _ => st
  | _ => st

/-- The whole event loop of get_answer, starting from the empty
full_response. -/
def runGenLoop (events : List StreamEvent) : GenLoopState :=
  events.foldl genStep { full_response := "", yields := [] }

/-- Concatenation of a list of strings (in order). -/
def joinStrings : List String → String
  | [] => ""
  | s :: rest => s ++ joinStrings rest

/-- Concatenation of the per-element lists produced by f, in order. -/
def concatMapList (f : α → List β) : List α → List β
  | [] => []
  | a :: l => f a ++ concatMapList f l

/-- The outcome of one exception-free run of get_answer that matters to
the caller and to persistence: the yielded output stream, the stored
history after the run, and the answer text passed to the analytics log. -/
structure AnswerOutcome where
  yields : List String
  storedHistory : List Msg
  loggedAnswer : String
deriving DecidableEq, Repr

/-- get_answer (bot/rag_service.py lines 124-201) on its exception-free
path, with the agent graph's event stream supplied as the oracle
`events`: the loop consumes the events (yielding markers and token
fragments and accumulating full_response), then the question/answer pair
is appended to the stored history (kept to the last 6 messages) and
full_response is handed to log_chat.  `cfg` carries the configuration the
service was built with; note that the body consults none of it on this
path — in particular MAX_DISTANCE is never read. -/
def get_answer (cfg : RagConfig) (stored : List Msg) (question : String)
    (events : List StreamEvent) : AnswerOutcome :=
  let st := runGenLoop events
  { yields := st.yields
    storedHistory := updateHistory stored question st.full_response
    loggedAnswer := st.full_response }

/-- reset_history (bot/rag_service.py lines 118-122): the in-memory
history dict maps a user id to its message list; the method deletes the
user's entry when present and does nothing otherwise. -/
def reset_history (h : Nat → Option (List Msg)) (user_id : Nat) :
    Nat → Option (List Msg) :=
  if (h user_id).isSome then
    fun u => if u = user_id then none else h u
  else
    h

/-- One row of the chat_logs analytics table (bot/database.py). -/
structure ChatLogRow where
  user_id : Nat
  question : String
  answer : String
  sources : String
deriving DecidableEq, Repr

/-- clear_chat_history (bot/database.py lines 78-89): DELETE FROM
chat_logs WHERE user_id = ?, i.e. keep exactly the rows of other users. -/
def clear_chat_history (db : List ChatLogRow) (user_id : Nat) : List ChatLogRow :=
  db.filter (fun r => r.user_id != user_id)

/-!
Helper lemmas.
-/

/-- The error-rewriting pass preserves the tool-call identifier of every
message. -/
theorem toolCallId_rewriteToolMsg : ∀ m, toolCallId (rewriteToolMsg m) = toolCallId m
  | Msg.system _ => rfl
  | Msg.human _ => rfl
  | Msg.ai _ _ => rfl
  | Msg.tool _ _ _ => by
    simp only [rewriteToolMsg]
    split <;> rfl

/-- On the normal path the composed tool node yields exactly one result
per call, in order, with matching identifiers. -/
theorem coreToolNode_rewrite_ids (exec : ToolCall → String × MsgStatus) :
    ∀ calls : List ToolCall,
      ((coreToolNode exec calls).map rewriteToolMsg).filterMap toolCallId
        = calls.map ToolCall.id := by
  intro calls
  induction calls with
  | nil => rfl
  | cons c cs ih =>
    rw [show coreToolNode exec (c :: cs)
          = Msg.tool (exec c).1 c.id (exec c).2 :: coreToolNode exec cs from rfl]
    rw [List.map_cons, List.filterMap_cons, toolCallId_rewriteToolMsg]
    simp [toolCallId, ih]

/-- Routing after appending a fresh assistant message: the graph goes to
the tools node exactly when that message carries tool calls. -/
theorem tools_condition_concat (msgs : List Msg) (c : String) (calls : List ToolCall) :
    tools_condition (msgs ++ [Msg.ai c calls]) = !calls.isEmpty := by
  unfold tools_condition
  rw [List.getLast?_concat]
  cases calls <;> rfl

/-- flatPairs distributes over append. -/
theorem flatPairs_append : ∀ ps qs : List (String × String),
    flatPairs (ps ++ qs) = flatPairs ps ++ flatPairs qs := by
  intro ps qs
  induction ps with
  | nil => rfl
  | cons qa ps ih => simp [flatPairs, ih]

/-- flatPairs doubles the length. -/
theorem length_flatPairs : ∀ ps : List (String × String),
    (flatPairs ps).length = 2 * ps.length := by
  intro ps
  induction ps with
  | nil => rfl
  | cons qa ps ih =>
    simp only [flatPairs, List.length_cons, ih, List.length]
    ring

/-- Dropping j pairs drops 2*j flattened messages. -/
theorem flatPairs_drop : ∀ (j : Nat) (ps : List (String × String)),
    flatPairs (ps.drop j) = (flatPairs ps).drop (2 * j) := by
  intro j
  induction j with
  | zero => intro ps; rfl
  | succ k ih =>
    intro ps
    cases ps with
    | nil => simp [flatPairs]
    | cons qa ps =>
      rw [show (2 * (k + 1)) = 2 * k + 1 + 1 by ring]
      show flatPairs (ps.drop k)
        = (Msg.human qa.1 :: Msg.ai qa.2 [] :: flatPairs ps).drop (2 * k + 1 + 1)
      rw [List.drop_succ_cons, List.drop_succ_cons]
      exact ih ps

/-- The trailing window of the flattened pairs is the flattening of the
trailing window of the pairs. -/
theorem lastN_flatPairs (k : Nat) (ps : List (String × String)) :
    lastN (2 * k) (flatPairs ps) = flatPairs (lastN k ps) := by
  unfold lastN
  rw [length_flatPairs, show 2 * ps.length - 2 * k = 2 * (ps.length - k) by omega,
    ← flatPairs_drop]

/-- Trailing window of an appended tail shorter than the window. -/
theorem lastN_append_of_le (k : Nat) (l t : List α) (h : t.length ≤ k) :
    lastN k (l ++ t) = lastN (k - t.length) l ++ t := by
  unfold lastN
  rw [List.length_append, List.drop_append_eq_append_drop]
  congr 1
  · congr 1
    omega
  · rw [show l.length + t.length - k - l.length = 0 by omega]
    rfl

/-- Nested trailing windows keep the smaller window. -/
theorem lastN_lastN (a b : Nat) (l : List α) :
    lastN a (lastN b l) = lastN (min a b) l := by
  unfold lastN
  rw [List.length_drop, List.drop_drop]
  congr 1
  omega

/-- Unfolding one completed interaction at the end of the sequence. -/
theorem runInteractions_concat (ps : List (String × String)) (qa : String × String) :
    runInteractions (ps ++ [qa]) = updateHistory (runInteractions ps) qa.1 qa.2 := by
  unfold runInteractions
  rw [List.foldl_append]
  rfl

/-- The stored window after any sequence of completed interactions is the
flattening of the last three question/answer pairs. -/
theorem runInteractions_eq : ∀ pairs : List (String × String),
    runInteractions pairs = flatPairs (lastN 3 pairs) := by
  intro pairs
  induction pairs using List.reverseRecOn with
  | nil => rfl
  | append_singleton ps qa ih =>
    rw [runInteractions_concat, ih]
    unfold updateHistory
    rw [show [Msg.human qa.1, Msg.ai qa.2 []] = flatPairs [qa] from rfl,
      ← flatPairs_append, show (6 : Nat) = 2 * 3 from rfl, lastN_flatPairs]
    congr 1
    rw [lastN_append_of_le 3 (lastN 3 ps) [qa] (by simp),
      lastN_append_of_le 3 ps [qa] (by simp)]
    simp [lastN_lastN]

/-- Closed form of the event-consuming loop of get_answer: starting from
any loop state, the run appends to full_response exactly the
concatenation of the model-token fragments, and appends to the yields
exactly the per-event outputs (markers and fragments) in order. -/
theorem foldl_genStep_spec : ∀ (events : List StreamEvent) (st : GenLoopState),
    events.foldl genStep st =
      { full_response := st.full_response ++ joinStrings (events.filterMap tokenOfEvent)
        yields := st.yields ++ concatMapList yieldOfEvent events } := by
  intro events
  induction events with
  | nil =>
    intro st
    simp [joinStrings, concatMapList, List.filterMap]
  | cons e es ih =>
    intro st
    rw [List.foldl_cons, ih]
    cases e with
    | on_tool_start =>
      simp [genStep, tokenOfEvent, yieldOfEvent, concatMapList, List.filterMap_cons]
    | on_other =>
      simp [genStep, tokenOfEvent, yieldOfEvent, concatMapList, List.filterMap_cons]
    | on_chat_model_stream chunk =>
      cases chunk with
      | none =>
        simp [genStep, tokenOfEvent, yieldOfEvent, concatMapList, List.filterMap_cons]
      | some c =>
        cases h : c.content with
        | absent =>
          simp [genStep, tokenOfEvent, yieldOfEvent, concatMapList, List.filterMap_cons, h]
        | nonStr =>
          simp [genStep, tokenOfEvent, yieldOfEvent, concatMapList, List.filterMap_cons, h]
        | str s =>
          by_cases hs : s = "" <;>
            simp [genStep, tokenOfEvent, yieldOfEvent, concatMapList,
              List.filterMap_cons, h, hs, joinStrings, String.append_assoc]

/-- Rounding half a cent up on a whole-ruble amount lands on the exact
cent count. -/
theorem ratFloor_half_natCast (n : ℕ) :
    Rat.floor ((n : ℚ) * 100 + 1/2) = (n : ℤ) * 100 := by
  have h : Rat.floor ((n : ℚ) * 100 + 1/2) = ⌊((n : ℚ) * 100 + 1/2)⌋ := rfl
  rw [h, Int.floor_eq_iff]
  constructor
  · push_cast
    linarith
  · push_cast
    linarith

/-- Money formatting of a whole nonnegative ruble amount reduces to the
purely natural-number renderer. -/
theorem formatMoney_natCast (n : ℕ) : formatMoney ((n : ℚ)) = formatMoneyNat (n * 100) := by
  have ht : ((n : ℤ) * 100).toNat = n * 100 := by omega
  unfold formatMoney
  rw [if_neg (not_lt.mpr (by positivity)), ratFloor_half_natCast, ht]

/-!
Claim theorems.
-/

set_option maxRecDepth 8000

/-- Claim C5: for all inputs, calculate_penalty_214fz computes
daily = price * 21.0/100 / 300 and total = daily * delay_days with the
fixed rate 21.0, reports the total and the doubled value 2*total in its
returned string, and (being a pure function of its inputs) is
deterministic; at price 10,000,000 and 5 days of delay the base penalty
is exactly 35,000.00 and the doubled note 70,000.00, as the returned
text shows. -/
theorem c5_calculate_penalty_214fz :
    (∀ (price : ℚ) (delay_days : ℤ),
      (calculate_penalty_214fz price delay_days).total_penalty
          = price * 21 / 100 / 300 * (delay_days : ℚ)
        ∧ (calculate_penalty_214fz price delay_days).doubled
          = 2 * (price * 21 / 100 / 300 * (delay_days : ℚ)))
    ∧ (calculate_penalty_214fz 10000000 5).total_penalty = 35000
    ∧ (calculate_penalty_214fz 10000000 5).doubled = 70000
    ∧ (calculate_penalty_214fz 10000000 5).text
      = "Расчет неустойки по 214-ФЗ:\n- Цена объекта: 10,000,000.00 руб.\n- Дней просрочки: 5\n- Ставка ЦБ РФ: 21.0%\n- Формула: (Цена * Ставка / 300) * Дни\n- Размер неустойки (1/300 ставки): 35,000.00 руб.\n(Примечание: Для физических лиц суд часто взыскивает неустойку в двойном размере — 1/150 ставки, то есть 70,000.00 руб.)" := by
  have e1 : (10000000 : ℚ) = ((10000000 : ℕ) : ℚ) := by norm_num
  have e2 : ((10000000 : ℚ) * (21 / 100) / 300 * ((5 : ℤ) : ℚ)) = ((35000 : ℕ) : ℚ) := by
    push_cast
    norm_num
  have e3 : (((35000 : ℕ) : ℚ) * 2) = ((70000 : ℕ) : ℚ) := by
    push_cast
    norm_num
  refine ⟨?_, ?_, ?_, ?_⟩
  · intro price delay_days
    constructor <;> (simp only [calculate_penalty_214fz]; ring)
  · simp only [calculate_penalty_214fz]
    rw [e2]
    norm_num
  · simp only [calculate_penalty_214fz]
    rw [e2, e3]
    norm_num
  · simp only [calculate_penalty_214fz]
    rw [e2, e3, e1, formatMoney_natCast, formatMoney_natCast, formatMoney_natCast]
    decide

/-- Claim C6: calculate_penalty_zpp computes and returns both
price * 0.01 * delay_days (goods) and price * 0.03 * delay_days
(services) raw, for every input — in particular even when the figure
exceeds the price, so the statutory cap appears only in the advisory
text and is never enforced numerically; at price 100,000 and 5 days it
yields 5,000.00 (goods) and 15,000.00 (services). -/
theorem c6_calculate_penalty_zpp :
    (∀ (price : ℚ) (delay_days : ℤ),
      (calculate_penalty_zpp price delay_days).penalty_1_percent
          = price * (1/100) * (delay_days : ℚ)
        ∧ (calculate_penalty_zpp price delay_days).penalty_3_percent
          = price * (3/100) * (delay_days : ℚ))
    ∧ (calculate_penalty_zpp 100000 5).penalty_1_percent = 5000
    ∧ (calculate_penalty_zpp 100000 5).penalty_3_percent = 15000
    ∧ (calculate_penalty_zpp 100 1000).penalty_3_percent = 3000
    ∧ (100 : ℚ) < (calculate_penalty_zpp 100 1000).penalty_3_percent
    ∧ (calculate_penalty_zpp 100000 5).text
      = "Расчет неустойки по ЗоЗПП (Закон о защите прав потребителей):\n- Цена: 100,000.00 руб.\n- Дней просрочки: 5\n\nВариант 1 (Товары - 1% в день, ст. 23 ЗоЗПП):\n- Сумма: 5,000.00 руб.\n\nВариант 2 (Работы/Услуги - 3% в день, ст. 28 ЗоЗПП):\n- Сумма: 15,000.00 руб.\n(Примечание: Сумма неустойки не может превышать стоимость товара/работы/услуги)." := by
  have e1 : (100000 : ℚ) = ((100000 : ℕ) : ℚ) := by norm_num
  have e2 : ((100000 : ℚ) * (1/100) * ((5 : ℤ) : ℚ)) = ((5000 : ℕ) : ℚ) := by
    push_cast
    norm_num
  have e3 : ((100000 : ℚ) * (3/100) * ((5 : ℤ) : ℚ)) = ((15000 : ℕ) : ℚ) := by
    push_cast
    norm_num
  refine ⟨fun price delay_days => ⟨rfl, rfl⟩, ?_, ?_, ?_, ?_, ?_⟩
  · simp only [calculate_penalty_zpp]
    rw [e2]
    norm_num
  · simp only [calculate_penalty_zpp]
    rw [e3]
    norm_num
  · simp only [calculate_penalty_zpp]
    push_cast
    norm_num
  · simp only [calculate_penalty_zpp]
    push_cast
    norm_num
  · simp only [calculate_penalty_zpp]
    rw [e2, e3, e1, formatMoney_natCast, formatMoney_natCast, formatMoney_natCast]
    decide

/-- Claim C7: for every user, after a sequence of completed interactions
the stored conversation window is exactly the most recent question/answer
pairs in chronological order, holding min(2*N, 6) messages after N
interactions — the oldest pair is dropped whenever a newly appended pair
would exceed the 6-message cap. -/
theorem c7_history_window : ∀ pairs : List (String × String),
    runInteractions pairs = flatPairs (lastN 3 pairs)
    ∧ (runInteractions pairs).length = min (2 * pairs.length) 6 := by
  intro pairs
  refine ⟨runInteractions_eq pairs, ?_⟩
  rw [runInteractions_eq pairs, length_flatPairs]
  unfold lastN
  rw [List.length_drop]
  omega

/-- reset_history leaves the dict unchanged when the user has no entry
(the membership check guards the deletion). -/
theorem reset_history_of_none (h : Nat → Option (List Msg)) (uid : Nat)
    (hn : h uid = none) : reset_history h uid = h := by
  unfold reset_history
  simp [hn]

/-- Claim C9: clearing a user's conversation history is idempotent — for
every user id, both the in-memory reset_history and the database
clear_chat_history leave that user's history empty, and repeating the
operation on the already-cleared state changes nothing and raises no
error (both operations are total functions). -/
theorem c9_clear_history_idempotent :
    ∀ (h : Nat → Option (List Msg)) (user_id : Nat) (db : List ChatLogRow),
      reset_history h user_id user_id = none
      ∧ reset_history (reset_history h user_id) user_id = reset_history h user_id
      ∧ (clear_chat_history db user_id).filter (fun r => r.user_id == user_id) = []
      ∧ clear_chat_history (clear_chat_history db user_id) user_id
        = clear_chat_history db user_id := by
  intro h user_id db
  have hres : reset_history h user_id user_id = none := by
    unfold reset_history
    by_cases hs : (h user_id).isSome
    · simp [hs]
    · simp [hs]
      exact Option.not_isSome_iff_eq_none.mp hs
  refine ⟨hres, ?_, ?_, ?_⟩
  · exact reset_history_of_none (reset_history h user_id) user_id hres
  · induction db with
    | nil => rfl
    | cons r db ih =>
      unfold clear_chat_history at *
      by_cases hr : r.user_id == user_id
      · simp only [List.filter, bne, hr, Bool.not_true]
        exact ih
      · simp only [List.filter, bne, hr, Bool.not_false]
        simpa [hr] using ih
  · induction db with
    | nil => rfl
    | cons r db ih =>
      unfold clear_chat_history at *
      by_cases hr : r.user_id == user_id
      · simp only [List.filter, bne, hr, Bool.not_true]
        exact ih
      · simp only [List.filter, bne, hr, Bool.not_false]
        simpa [hr] using ih

/-- Claim C10: on every exception-free run of get_answer, the yielded
stream is exactly the per-event outputs in order (the fixed marker on
each on_tool_start event, the token fragment on each model-stream event
carrying one); the assistant message appended to the stored history and
the answer handed to the analytics log both equal the in-order
concatenation of exactly the model-token fragments — the tool-status
marker, although yielded, contributes nothing to either. -/
theorem c10_stored_answer_is_token_concat :
    ∀ (cfg : RagConfig) (stored : List Msg) (question : String)
      (events : List StreamEvent),
      (get_answer cfg stored question events).yields = concatMapList yieldOfEvent events
      ∧ (get_answer cfg stored question events).loggedAnswer
        = joinStrings (events.filterMap tokenOfEvent)
      ∧ (get_answer cfg stored question events).storedHistory
        = updateHistory stored question (joinStrings (events.filterMap tokenOfEvent))
      ∧ yieldOfEvent StreamEvent.on_tool_start = [TOOL_STATUS_MARKER]
      ∧ tokenOfEvent StreamEvent.on_tool_start = none := by
  intro cfg stored question events
  have h := foldl_genStep_spec events { full_response := "", yields := [] }
  unfold get_answer runGenLoop
  rw [h]
  refine ⟨by simp, by simp, by simp, rfl, rfl⟩

/-- Claim C8 counterexample: with a maximum-distance threshold of 0.45
configured and no reranker active, get_answer does not refuse — its
output is exactly whatever the agent graph's model stream produces
(here two different runs produce two different outputs, so no fixed
refusal message is yielded and the model stream is consumed), and the
outcome is identical with the threshold disabled.  The retrieval
distances (e.g. a best match at 0.8) never enter get_answer at all. -/
theorem c8_counterexample :
    ({ retrieverK := 10, rerankerK := 3, maxDistance := some (45/100),
        llmConcurrency := 1 } : RagConfig).maxDistance = some (45/100)
    ∧ (get_answer
        { retrieverK := 10, rerankerK := 3, maxDistance := some (45/100), llmConcurrency := 1 }
        [] "Вопрос"
        [StreamEvent.on_chat_model_stream (some { content := ChunkContent.str "Ответ" })]).yields
      = ["Ответ"]
    ∧ (get_answer
        { retrieverK := 10, rerankerK := 3, maxDistance := some (45/100), llmConcurrency := 1 }
        [] "Вопрос"
        [StreamEvent.on_chat_model_stream (some { content := ChunkContent.str "Другой ответ" })]).yields
      = ["Другой ответ"]
    ∧ get_answer
        { retrieverK := 10, rerankerK := 3, maxDistance := some (45/100), llmConcurrency := 1 }
        [] "Вопрос"
        [StreamEvent.on_chat_model_stream (some { content := ChunkContent.str "Ответ" })]
      = get_answer
        { retrieverK := 10, rerankerK := 3, maxDistance := none, llmConcurrency := 1 }
        [] "Вопрос"
        [StreamEvent.on_chat_model_stream (some { content := ChunkContent.str "Ответ" })] := by
  exact ⟨rfl, rfl, rfl, rfl⟩

/-- Claim C8 amended: the current get_answer implements no relevance
gate — the configured maximum-distance threshold is never consulted, so
the outcome of every run is independent of it, and the agent graph's
streamed model tokens are always emitted to the caller (the language
model is always involved, never pre-empted by a refusal). -/
theorem c8_amended_no_relevance_gate :
    ∀ (cfg : RagConfig) (md md' : Option ℚ) (stored : List Msg) (question : String)
      (events : List StreamEvent),
      get_answer { cfg with maxDistance := md } stored question events
        = get_answer { cfg with maxDistance := md' } stored question events
      ∧ (get_answer { cfg with maxDistance := md } stored question events).yields
        = concatMapList yieldOfEvent events := by
  intro cfg md md' stored question events
  have h := foldl_genStep_spec events { full_response := "", yields := [] }
  constructor
  · rfl
  · unfold get_answer runGenLoop
    rw [h]
    simp

/-- Claim C1 counterexample: an assistant turn requesting two tool calls
(identifiers call1 and call2) on which the tool-invocation machinery
raises an unexpected exception yields a single synthetic tool-result
message covering only call1 — one result for two requests, so the
identifiers do not cover the turn's requested call identifiers on this
path. -/
theorem c1_counterexample :
    lastPendingCalls
        [Msg.ai "" [{ name := "search_laws", args := "q", id := "call1" },
          { name := "search_laws", args := "q", id := "call2" }]]
      = [{ name := "search_laws", args := "q", id := "call1" },
          { name := "search_laws", args := "q", id := "call2" }]
    ∧ (safe_tool_node
        [Msg.ai "" [{ name := "search_laws", args := "q", id := "call1" },
          { name := "search_laws", args := "q", id := "call2" }]]
        (fun _ => ("ok", MsgStatus.ok)) (some "boom")).filterMap toolCallId
      = ["call1"]
    ∧ (safe_tool_node
        [Msg.ai "" [{ name := "search_laws", args := "q", id := "call1" },
          { name := "search_laws", args := "q", id := "call2" }]]
        (fun _ => ("ok", MsgStatus.ok)) (some "boom")).length = 1 := by
  exact ⟨rfl, rfl, rfl⟩

/-- Claim C1 amended: on the normal path — including results rewritten
with the corrective instruction — the tool node produces exactly one
tool-result message per tool-call request of the assistant turn, whose
identifiers cover the requested call identifiers in order; when the
tool-invocation machinery itself raises, it instead produces a single
synthetic error result bearing the first pending call identifier, and no
message at all when no call is pending. -/
theorem c1_amended_tool_result_coverage :
    ∀ (msgs : List Msg) (exec : ToolCall → String × MsgStatus),
      ((safe_tool_node msgs exec none).filterMap toolCallId
          = (lastPendingCalls msgs).map ToolCall.id
        ∧ (safe_tool_node msgs exec none).length = (lastPendingCalls msgs).length)
      ∧ (∀ e c cs, lastPendingCalls msgs = c :: cs →
          safe_tool_node msgs exec (some e)
            = [Msg.tool ( MSG_TOOL_CRITICAL_ERROR ++ e ++ MSG_TOOL_ERROR_TAIL)
                c.id MsgStatus.error])
      ∧ (∀ e, lastPendingCalls msgs = [] → safe_tool_node msgs exec (some e) = []) := by
  intro msgs exec
  refine ⟨⟨coreToolNode_rewrite_ids exec (lastPendingCalls msgs), ?_⟩, ?_, ?_⟩
  · simp [safe_tool_node, coreToolNode]
  · intro e c cs hcalls
    unfold safe_tool_node
    rw [hcalls]
  · intro e hcalls
    unfold safe_tool_node
    rw [hcalls]

/-- Claim C1 amended witness: a two-call turn whose results are rewritten
with the corrective instruction still covers both identifiers; a one-call
turn with a machinery crash yields the single synthetic result for its
identifier; a crash with no assistant turn pending yields no message. -/
theorem c1_amended_witness :
    (safe_tool_node
        [Msg.ai "" [{ name := "search_laws", args := "q", id := "call1" },
          { name := "search_laws", args := "q", id := "call2" }]]
        (fun _ => ("Error: validation error", MsgStatus.ok)) none).filterMap toolCallId
      = ["call1", "call2"]
    ∧ safe_tool_node
        [Msg.ai "" [{ name := "search_laws", args := "q", id := "call1" }]]
        (fun _ => ("ok", MsgStatus.ok)) (some "Critical Crash")
      = [Msg.tool ( MSG_TOOL_CRITICAL_ERROR ++ "Critical Crash" ++ MSG_TOOL_ERROR_TAIL)
          "call1" MsgStatus.error]
    ∧ safe_tool_node [Msg.human "hi"] (fun _ => ("ok", MsgStatus.ok)) (some "Critical Crash")
      = [] := by
  refine ⟨?_, ?_, ?_⟩
  · exact ((c1_amended_tool_result_coverage
      [Msg.ai "" [{ name := "search_laws", args := "q", id := "call1" },
        { name := "search_laws", args := "q", id := "call2" }]]
      (fun _ => ("Error: validation error", MsgStatus.ok))).1).1
  · exact (c1_amended_tool_result_coverage
      [Msg.ai "" [{ name := "search_laws", args := "q", id := "call1" }]]
      (fun _ => ("ok", MsgStatus.ok))).2.1 "Critical Crash"
      { name := "search_laws", args := "q", id := "call1" } [] rfl
  · exact (c1_amended_tool_result_coverage [Msg.human "hi"]
      (fun _ => ("ok", MsgStatus.ok))).2.2 "Critical Crash" rfl

/-- Claim C2: the agent loop produced by create_agent_graph terminates
exactly at the first MODEL-node assistant message carrying no tool-call
requests (that message closing the run), transitions to the tools node
and back to the model node whenever the assistant message carries tool
calls, and has no iteration ceiling — a model that always requests a
tool call keeps the loop running past every bound. -/
theorem c2_agent_loop_termination :
    (∀ (model : List Msg → String × List ToolCall) (toolsNode : List Msg → List Msg)
      (fuel : Nat) (msgs : List Msg) (c : String),
      model msgs = (c, []) →
        runAgentGraph model toolsNode (fuel + 1) msgs = some (msgs ++ [Msg.ai c []]))
    ∧ (∀ (model : List Msg → String × List ToolCall) (toolsNode : List Msg → List Msg)
      (fuel : Nat) (msgs : List Msg) (c : String) (calls : List ToolCall),
      model msgs = (c, calls) → calls ≠ [] →
        runAgentGraph model toolsNode (fuel + 1) msgs
          = runAgentGraph model toolsNode fuel
            ((msgs ++ [Msg.ai c calls]) ++ toolsNode (msgs ++ [Msg.ai c calls])))
    ∧ (∀ (toolsNode : List Msg → List Msg) (fuel : Nat) (msgs : List Msg),
      runAgentGraph
        (fun _ => ("", [{ name := "search_laws", args := "q", id := "call1" }]))
        toolsNode fuel msgs = none) := by
  refine ⟨?_, ?_, ?_⟩
  · intro model toolsNode fuel msgs c hm
    show (if tools_condition (call_model model msgs) then _ else some (call_model model msgs))
      = some (msgs ++ [Msg.ai c []])
    unfold call_model
    rw [hm]
    rw [tools_condition_concat]
    rfl
  · intro model toolsNode fuel msgs c calls hm hne
    show (if tools_condition (call_model model msgs) then
        runAgentGraph model toolsNode fuel
          (call_model model msgs ++ toolsNode (call_model model msgs))
      else some (call_model model msgs)) = _
    unfold call_model
    rw [hm, tools_condition_concat]
    cases calls with
    | nil => exact absurd rfl hne
    | cons tc tcs => rfl
  · intro toolsNode fuel
    induction fuel with
    | zero => intro msgs; rfl
    | succ n ih =>
      intro msgs
      show (if tools_condition (call_model _ msgs) then _ else some (call_model _ msgs)) = none
      unfold call_model
      rw [tools_condition_concat]
      exact ih _

/-- Claim C2 witness: with a model answering immediately the loop ends at
that first call-free message; with a model that always requests a tool
call the run exceeds every fuel bound. -/
theorem c2_witness :
    runAgentGraph (fun _ => ("Готовый ответ", [])) (fun _ => []) 5 [Msg.human "Вопрос"]
      = some ([Msg.human "Вопрос"] ++ [Msg.ai "Готовый ответ" []])
    ∧ runAgentGraph
        (fun _ => ("", [{ name := "search_laws", args := "q", id := "call1" }]))
        (fun _ => []) 1 []
      = runAgentGraph
        (fun _ => ("", [{ name := "search_laws", args := "q", id := "call1" }]))
        (fun _ => []) 0
        (([] ++ [Msg.ai "" [{ name := "search_laws", args := "q", id := "call1" }]]) ++ [])
    ∧ runAgentGraph
        (fun _ => ("", [{ name := "search_laws", args := "q", id := "call1" }]))
        (fun _ => []) 7 [] = none := by
  refine ⟨?_, ?_, ?_⟩
  · exact c2_agent_loop_termination.1 (fun _ => ("Готовый ответ", [])) (fun _ => []) 4
      [Msg.human "Вопрос"] "Готовый ответ" rfl
  · exact c2_agent_loop_termination.2.1
      (fun _ => ("", [{ name := "search_laws", args := "q", id := "call1" }]))
      (fun _ => []) 0 [] ""
      [{ name := "search_laws", args := "q", id := "call1" }] rfl (by simp)
  · exact c2_agent_loop_termination.2.2 (fun _ => []) 7 []

/-- Claim C3: retrieval construction degrades instead of failing — if the
BM25 file is absent or fails to load, the base retriever is the dense
Chroma retriever alone (initialization continues, returning a retriever
in every environment); if the reranker fails to initialize, the component
returns the base retriever unmodified (never a compression wrapper),
while a successful reranker wraps that same base; the choice is a pure
function of the construction-time environment, decided once. -/
theorem c3_retrieval_degradation :
    ∀ (cfg : RagConfig) (env : InitEnv),
      (env.bm25Exists = false →
        initializeBaseRetriever cfg env = Retriever.chroma cfg.retrieverK)
      ∧ (∀ e, env.bm25Load = Except.error e →
        initializeBaseRetriever cfg env = Retriever.chroma cfg.retrieverK)
      ∧ (∀ e, env.rerankerInit = Except.error e →
        initialize_retriever cfg env = initializeBaseRetriever cfg env
        ∧ ∀ n b, initialize_retriever cfg env ≠ Retriever.compression n b)
      ∧ (∀ u, env.rerankerInit = Except.ok u →
        initialize_retriever cfg env
          = Retriever.compression cfg.rerankerK (initializeBaseRetriever cfg env)) := by
  intro cfg env
  refine ⟨?_, ?_, ?_, ?_⟩
  · intro hb
    simp [initializeBaseRetriever, hb]
  · intro e he
    unfold initializeBaseRetriever
    by_cases hb : env.bm25Exists <;> simp [hb, he]
  · intro e he
    constructor
    · unfold initialize_retriever
      rw [he]
    · intro n b hcontra
      unfold initialize_retriever at hcontra
      rw [he] at hcontra
      unfold initializeBaseRetriever at hcontra
      by_cases hb : env.bm25Exists
      · rw [if_pos hb] at hcontra
        cases hload : env.bm25Load with
        | ok k => rw [hload] at hcontra; exact Retriever.noConfusion hcontra
        | error err => rw [hload] at hcontra; exact Retriever.noConfusion hcontra
      · rw [if_neg hb] at hcontra
        exact Retriever.noConfusion hcontra
  · intro u hu
    unfold initialize_retriever
    rw [hu]

/-- Claim C3 witness: with the BM25 file absent and the reranker failing
to initialize, construction still returns a retriever — the dense Chroma
retriever alone, unwrapped; with the reranker succeeding it returns the
compression wrapper over the same base. -/
theorem c3_witness :
    initializeBaseRetriever
        { retrieverK := 10, rerankerK := 3, maxDistance := none, llmConcurrency := 1 }
        { bm25Exists := false, bm25Load := Except.error "no file",
          rerankerInit := Except.error "Failed to initialize Reranker" }
      = Retriever.chroma 10
    ∧ initialize_retriever
        { retrieverK := 10, rerankerK := 3, maxDistance := none, llmConcurrency := 1 }
        { bm25Exists := false, bm25Load := Except.error "no file",
          rerankerInit := Except.error "Failed to initialize Reranker" }
      = initializeBaseRetriever
        { retrieverK := 10, rerankerK := 3, maxDistance := none, llmConcurrency := 1 }
        { bm25Exists := false, bm25Load := Except.error "no file",
          rerankerInit := Except.error "Failed to initialize Reranker" }
    ∧ initializeBaseRetriever
        { retrieverK := 10, rerankerK := 3, maxDistance := none, llmConcurrency := 1 }
        { bm25Exists := true, bm25Load := Except.error "corrupt pickle",
          rerankerInit := Except.ok () }
      = Retriever.chroma 10
    ∧ initialize_retriever
        { retrieverK := 10, rerankerK := 3, maxDistance := none, llmConcurrency := 1 }
        { bm25Exists := true, bm25Load := Except.ok 4, rerankerInit := Except.ok () }
      = Retriever.compression 3
          (initializeBaseRetriever
            { retrieverK := 10, rerankerK := 3, maxDistance := none, llmConcurrency := 1 }
            { bm25Exists := true, bm25Load := Except.ok 4, rerankerInit := Except.ok () }) := by
  refine ⟨?_, ?_, ?_, ?_⟩
  · exact (c3_retrieval_degradation
      { retrieverK := 10, rerankerK := 3, maxDistance := none, llmConcurrency := 1 }
      { bm25Exists := false, bm25Load := Except.error "no file",
        rerankerInit := Except.error "Failed to initialize Reranker" }).1 rfl
  · exact ((c3_retrieval_degradation
      { retrieverK := 10, rerankerK := 3, maxDistance := none, llmConcurrency := 1 }
      { bm25Exists := false, bm25Load := Except.error "no file",
        rerankerInit := Except.error "Failed to initialize Reranker" }).2.2.1
      "Failed to initialize Reranker" rfl).1
  · exact (c3_retrieval_degradation
      { retrieverK := 10, rerankerK := 3, maxDistance := none, llmConcurrency := 1 }
      { bm25Exists := true, bm25Load := Except.error "corrupt pickle",
        rerankerInit := Except.ok () }).2.1 "corrupt pickle" rfl
  · exact (c3_retrieval_degradation
      { retrieverK := 10, rerankerK := 3, maxDistance := none, llmConcurrency := 1 }
      { bm25Exists := true, bm25Load := Except.ok 4, rerankerInit := Except.ok () }).2.2.2
      () rfl

/-- Claim C4: search_laws never propagates an exception — it is a total
function returning the fixed "not configured" message when no retriever
is bound, the fixed "nothing found" message when the bound retriever
returns an empty list, and a formatted error string embedding the
exception text when the retriever invocation raises. -/
theorem c4_search_laws_total :
    ∀ (retriever : Option (String → Except String (List Document))) (query : String),
      (retriever = none → search_laws retriever query = MSG_SEARCH_NOT_CONFIGURED)
      ∧ (∀ r, retriever = some r → r query = Except.ok [] →
          search_laws retriever query = MSG_SEARCH_NOTHING_FOUND)
      ∧ (∀ r e, retriever = some r → r query = Except.error e →
          search_laws retriever query = "Ошибка при выполнении поиска: " ++ e) := by
  intro retriever query
  refine ⟨?_, ?_, ?_⟩
  · intro h
    rw [h]
    rfl
  · intro r hr hq
    rw [hr]
    simp [search_laws, hq]
  · intro r e hr hq
    rw [hr]
    simp [search_laws, hq]

/-- Claim C4 witness: the three protected outcomes at concrete inputs —
no retriever bound, an empty result list, and a raised exception whose
text is embedded in the reported string. -/
theorem c4_witness :
    search_laws none "неустойка по ДДУ" = MSG_SEARCH_NOT_CONFIGURED
    ∧ search_laws (some (fun _ => Except.ok [])) "неустойка по ДДУ"
      = MSG_SEARCH_NOTHING_FOUND
    ∧ search_laws (some (fun _ => Except.error "Search failed")) "неустойка по ДДУ"
      = "Ошибка при выполнении поиска: " ++ "Search failed" := by
  refine ⟨?_, ?_, ?_⟩
  · exact (c4_search_laws_total none "неустойка по ДДУ").1 rfl
  · exact (c4_search_laws_total (some (fun _ => Except.ok [])) "неустойка по ДДУ").2.1
      (fun _ => Except.ok []) rfl rfl
  · exact (c4_search_laws_total (some (fun _ => Except.error "Search failed"))
      "неустойка по ДДУ").2.2 (fun _ => Except.error "Search failed") "Search failed" rfl rfl
